import Mathlib

/-!
Verification of `jupyter_server/services/kernels/websocket.py`
(`KernelWebsocketHandler`): the admission gate (`pre_get`), the
sub-protocol negotiator (`select_subprotocol`), the inbound-frame
interceptor (`on_message`) and the relay lifecycle (`open`/`on_close`).

The Python `json` module is modelled by an executable `loads`/`dumps`
pair over a `Json` value type. JSON numbers are modelled as integers;
floating-point literals are outside the scope of the embedding (our
`loads` rejects them, so frames containing them fall into the
fail-open passthrough path of the model). Python `None` is identified
with JSON `null`, as `json.loads` does. Exceptions raised inside the
`try` block of `on_message` are modelled as `Option.none` results,
recovered exactly where `except Exception: pass` recovers them.
-/

namespace JupyterKernelWS

/-- JSON values as produced by `json.loads`: objects keep key order
(insertion order of the Python dict), numbers are modelled as integers. -/
inductive Json where
  | null : Json
  | bool : Bool → Json
  | num : Int → Json
  | str : String → Json
  | arr : List Json → Json
  | obj : List (String × Json) → Json

/-- Lookup of a key in an association list representing a Python dict
(first match; parsing collapses duplicates so keys are unique). -/
def lookupKV (kvs : List (String × Json)) (k : String) : Option Json :=
  match kvs with
  | [] => none
  | (k1, v) :: rest => if k1 = k then some v else lookupKV rest k

/-- Python dict item assignment `d[k] = v`: replaces the value in place
when the key is present (keeping its position), appends otherwise. -/
def setKV (kvs : List (String × Json)) (k : String) (v : Json) : List (String × Json) :=
  match kvs with
  | [] => [(k, v)]
  | (k1, v1) :: rest => if k1 = k then (k, v) :: rest else (k1, v1) :: setKV rest k v

/-- Hexadecimal digit character (lower case), as used by `json.dumps`
unicode escapes. -/
def hexDigit (n : Nat) : Char :=
  if n < 10 then Char.ofNat (48 + n) else Char.ofNat (87 + n)

/-- Four-digit hexadecimal rendering of `n % 65536`. -/
def hex4 (n : Nat) : String :=
  String.mk [hexDigit (n / 4096 % 16), hexDigit (n / 256 % 16), hexDigit (n / 16 % 16), hexDigit (n % 16)]

/-- Escaping of one character inside a JSON string literal, following
`json.dumps` with its default `ensure_ascii=True`. -/
def escJsonChar (c : Char) : String :=
  if c = '"' then "\\\""
  else if c = '\\' then "\\\\"
  else if c = '\n' then "\\n"
  else if c = '\t' then "\\t"
  else if c = '\r' then "\\r"
  else if c.toNat = 8 then "\\b"
  else if c.toNat = 12 then "\\f"
  else if c.toNat < 32 then "\\u" ++ hex4 c.toNat
  else if c.toNat < 127 then String.mk [c]
  else if c.toNat < 65536 then "\\u" ++ hex4 c.toNat
  else
    "\\u" ++ hex4 (55296 + (c.toNat - 65536) / 1024) ++ "\\u" ++ hex4 (56320 + (c.toNat - 65536) % 1024)

/-- JSON string literal rendering used by `json.dumps`. -/
def dumpStr (s : String) : String :=
  "\"" ++ String.join (s.data.map escJsonChar) ++ "\""

mutual

/-- Serialization modelling `json.dumps` with its default arguments
(separators a comma plus space and a colon plus space, ASCII escapes). -/
def dumps : Json → String
  | .null => "null"
  | .bool true => "true"
  | .bool false => "false"
  | .num n => toString n
  | .str s => dumpStr s
  | .arr xs => "[" ++ dumpsArr xs ++ "]"
  | .obj kvs => "\x7b" ++ dumpsObj kvs ++ "\x7d"

/-- Comma-separated rendering of array elements. -/
def dumpsArr : List Json → String
  | [] => ""
  | [x] => dumps x
  | x :: y :: rest => dumps x ++ ", " ++ dumpsArr (y :: rest)

/-- Comma-separated rendering of object members. -/
def dumpsObj : List (String × Json) → String
  | [] => ""
  | [(k, v)] => dumpStr k ++ ": " ++ dumps v
  | (k, v) :: p :: rest => dumpStr k ++ ": " ++ dumps v ++ ", " ++ dumpsObj (p :: rest)

end

/-- Escaping of one character inside a Python single-quoted string
repr; models the common cases of CPython `repr` on `str`. -/
def escPyChar (c : Char) : String :=
  if c = '\\' then "\\\\"
  else if c = '\x27' then "\\\x27"
  else if c = '\n' then "\\n"
  else if c = '\r' then "\\r"
  else if c = '\t' then "\\t"
  else String.mk [c]

mutual

/-- Python `repr` of a value decoded from JSON (models the common
single-quote form of CPython string reprs). -/
def pyRepr : Json → String
  | .null => "None"
  | .bool true => "True"
  | .bool false => "False"
  | .num n => toString n
  | .str s => "\x27" ++ String.join (s.data.map escPyChar) ++ "\x27"
  | .arr xs => "[" ++ pyReprArr xs ++ "]"
  | .obj kvs => "\x7b" ++ pyReprObj kvs ++ "\x7d"

/-- Comma-separated reprs of list elements. -/
def pyReprArr : List Json → String
  | [] => ""
  | [x] => pyRepr x
  | x :: y :: rest => pyRepr x ++ ", " ++ pyReprArr (y :: rest)

/-- Comma-separated reprs of dict members. -/
def pyReprObj : List (String × Json) → String
  | [] => ""
  | [(k, v)] => pyRepr (.str k) ++ ": " ++ pyRepr v
  | (k, v) :: p :: rest => pyRepr (.str k) ++ ": " ++ pyRepr v ++ ", " ++ pyReprObj (p :: rest)

end

/-- Python `str()` of a value decoded from JSON, as interpolated by an
f-string: strings format as themselves, every other value via `repr`. -/
def pyStr (v : Json) : String :=
  match v with
  | .str s => s
  | v => pyRepr v

/-- Whitespace characters skipped between JSON tokens. -/
def isJsonWs (c : Char) : Bool :=
  c = ' ' || c = '\t' || c = '\n' || c = '\r'

/-- Drop leading JSON whitespace. -/
def skipWs : List Char → List Char
  | [] => []
  | c :: cs => if isJsonWs c then skipWs cs else c :: cs

/-- Numeric value of a hexadecimal digit character. -/
def hexVal (c : Char) : Option Nat :=
  if 48 ≤ c.toNat ∧ c.toNat ≤ 57 then some (c.toNat - 48)
  else if 97 ≤ c.toNat ∧ c.toNat ≤ 102 then some (c.toNat - 87)
  else if 65 ≤ c.toNat ∧ c.toNat ≤ 70 then some (c.toNat - 55)
  else none

/-- Prepend a decoded character to the content of a string-scan result. -/
def consScan (c : Char) (r : Option (List Char × List Char)) : Option (List Char × List Char) :=
  r.map (fun p => (c :: p.1, p.2))

/-- Scan the body of a JSON string literal after its opening quote,
returning the decoded characters and the remainder after the closing
quote; models the strict decoder (raw control characters rejected).
Lone surrogate escapes, which CPython tolerates, are not modelled: the
`Char` type carries unicode scalar values only, so they fall into the
fail-open path. -/
def scanStr (fuel : Nat) (cs : List Char) : Option (List Char × List Char) :=
  match fuel with
  | 0 => none
  | fuel + 1 =>
    match cs with
    | [] => none
    | c :: rest =>
      if c = '"' then some ([], rest)
      else if c = '\\' then
        match rest with
        | [] => none
        | e :: rest2 =>
          if e = '"' then consScan '"' (scanStr fuel rest2)
          else if e = '\\' then consScan '\\' (scanStr fuel rest2)
          else if e = '/' then consScan '/' (scanStr fuel rest2)
          else if e = 'b' then consScan '\x08' (scanStr fuel rest2)
          else if e = 'f' then consScan '\x0c' (scanStr fuel rest2)
          else if e = 'n' then consScan '\n' (scanStr fuel rest2)
          else if e = 'r' then consScan '\r' (scanStr fuel rest2)
          else if e = 't' then consScan '\t' (scanStr fuel rest2)
          else if e = 'u' then
            match rest2 with
            | a :: b :: c2 :: d :: rest3 =>
              match hexVal a, hexVal b, hexVal c2, hexVal d with
              | some ha, some hb, some hc, some hd =>
                let n := ha * 4096 + hb * 256 + hc * 16 + hd
                if 55296 ≤ n ∧ n ≤ 56319 then
                  match rest3 with
                  | s1 :: s2 :: a2 :: b2 :: c3 :: d2 :: rest4 =>
                    if s1 = '\\' ∧ s2 = 'u' then
                      match hexVal a2, hexVal b2, hexVal c3, hexVal d2 with
                      | some ha2, some hb2, some hc2, some hd2 =>
                        let m := ha2 * 4096 + hb2 * 256 + hc2 * 16 + hd2
                        if 56320 ≤ m ∧ m ≤ 57343 then
                          consScan (Char.ofNat (65536 + (n - 55296) * 1024 + (m - 56320))) (scanStr fuel rest4)
                        else none
                      | _, _, _, _ => none
                    else none
                  | _ => none
                else if 56320 ≤ n ∧ n ≤ 57343 then none
                else consScan (Char.ofNat n) (scanStr fuel rest3)
              | _, _, _, _ => none
            | _ => none
          else none
      else if c.toNat < 32 then none
      else consScan c (scanStr fuel rest)

/-- Accumulate a run of decimal digits. -/
def takeDigits : List Char → Nat → (Nat × List Char)
  | [], n => (n, [])
  | c :: cs, n => if c.isDigit then takeDigits cs (n * 10 + (c.toNat - 48)) else (n, c :: cs)

/-- Scan a JSON number token. Integer literals follow the JSON grammar
(no leading zeros); a following fraction or exponent marks a float,
which the embedding does not model, so it is rejected. -/
def scanNum (cs : List Char) : Option (Json × List Char) :=
  let (neg, cs1) : Bool × List Char :=
    match cs with
    | '-' :: r => (true, r)
    | _ => (false, cs)
  match cs1 with
  | [] => none
  | c :: cs2 =>
    let nextIsDigit : Bool :=
      match cs2 with
      | d :: _ => d.isDigit
      | [] => false
    if ¬ c.isDigit then none
    else if c = '0' ∧ nextIsDigit then none
    else
      let (n, rest) := takeDigits cs1 0
      match rest with
      | [] => some (.num (if neg then -(n : Int) else (n : Int)), [])
      | r :: _ =>
        if r = '.' ∨ r = 'e' ∨ r = 'E' then none
        else some (.num (if neg then -(n : Int) else (n : Int)), r :: (rest.tail))

mutual

/-- Recursive-descent scan of one JSON value, expecting `cs` to start
at a non-whitespace character; models `json.loads` value dispatch. -/
def parseVal (fuel : Nat) (cs : List Char) : Option (Json × List Char) :=
  match fuel with
  | 0 => none
  | fuel + 1 =>
    match cs with
    | [] => none
    | 't' :: 'r' :: 'u' :: 'e' :: rest => some (.bool true, rest)
    | 'f' :: 'a' :: 'l' :: 's' :: 'e' :: rest => some (.bool false, rest)
    | 'n' :: 'u' :: 'l' :: 'l' :: rest => some (.null, rest)
    | '"' :: rest => (scanStr (rest.length + 1) rest).map (fun p => (.str (String.mk p.1), p.2))
    | '[' :: rest => parseItems fuel (skipWs rest) []
    | '\x7b' :: rest => parseMembers fuel (skipWs rest) []
    | cs => scanNum cs

/-- Scan array elements after the opening bracket (whitespace already
skipped); `acc` holds the elements decoded so far. -/
def parseItems (fuel : Nat) (cs : List Char) (acc : List Json) : Option (Json × List Char) :=
  match fuel with
  | 0 => none
  | fuel + 1 =>
    match cs with
    | ']' :: rest => if acc.isEmpty then some (.arr [], rest) else none
    | _ =>
      match parseVal fuel cs with
      | none => none
      | some (v, rest) =>
        match skipWs rest with
        | ',' :: rest2 => parseItems fuel (skipWs rest2) (acc ++ [v])
        | ']' :: rest2 => some (.arr (acc ++ [v]), rest2)
        | _ => none

/-- Scan object members after the opening brace (whitespace already
skipped); duplicate keys overwrite in place, as Python dict insertion
does during decoding. -/
def parseMembers (fuel : Nat) (cs : List Char) (acc : List (String × Json)) : Option (Json × List Char) :=
  match fuel with
  | 0 => none
  | fuel + 1 =>
    match cs with
    | '\x7d' :: rest => if acc.isEmpty then some (.obj [], rest) else none
    | '"' :: rest =>
      match scanStr (rest.length + 1) rest with
      | none => none
      | some (kcs, rest2) =>
        match skipWs rest2 with
        | ':' :: rest3 =>
          match parseVal fuel (skipWs rest3) with
          | none => none
          | some (v, rest4) =>
            match skipWs rest4 with
            | ',' :: rest5 => parseMembers fuel (skipWs rest5) (setKV acc (String.mk kcs) v)
            | '\x7d' :: rest5 => some (.obj (setKV acc (String.mk kcs) v), rest5)
            | _ => none
        | _ => none
    | _ => none

end

/-- Parsing modelling `json.loads`: one JSON document with surrounding
whitespace allowed and trailing garbage rejected; `none` models the
decoder raising (recovered by the caller's `except` clause). -/
def loads (s : String) : Option Json :=
  match parseVal (2 * s.length + 2) (skipWs s.data) with
  | some (v, rest) => if skipWs rest = [] then some v else none
  | none => none

/-- Websocket frame delivered to `on_message`: tornado hands the
handler a `str` for text frames and `bytes` for binary frames. -/
inductive Frame where
  | text : String → Frame
  | binary : List Nat → Frame
deriving DecidableEq, Repr

/-- Python `x.get(k, d)` on a value that may not be a dict: `none`
models the `AttributeError` raised when `x` has no `get` method. -/
def pyGetD (v : Json) (k : String) (d : Json) : Option Json :=
  match v with
  | .obj kvs => some ((lookupKV kvs k).getD d)
  | _ => none

/-- Python truth of `x == "execute_request"` for a decoded value `x`:
true exactly on the equal string. -/
def isExecuteRequestType (v : Json) : Bool :=
  match v with
  | .str s => s = "execute_request"
  | _ => false

/-- Python truth of `x is not None` for a decoded value. -/
def isNotNone (v : Json) : Bool :=
  match v with
  | .null => false
  | _ => true

/-- Interpolation of `self.request.headers.get(...)` into the
f-string: the header value itself, or `str(None)` when absent. -/
def pyStrOfHeader : Option String → String
  | none => "None"
  | some t => t

/-- Replacement value for `message['content']['code']` built by the
f-string in `on_message`. -/
def injectedCode (tok : Option String) (code : Json) : String :=
  "import os\nos.environ[\x27FORWARDED_ACCESS_TOKEN\x27] = \x27" ++ pyStrOfHeader tok ++ "\x27\n" ++ pyStr code

/-- Body of the `try` block of `on_message` after `json.loads`
succeeded: `none` models an exception escaping to the `except` clause.
Mirrors the source statement for statement, including the
short-circuit of `and` (the `content` lookup is not evaluated when the
message type test is false). -/
def tryBody (tok : Option String) (message : Json) : Option String :=
  match message with
  | .obj mk =>
    match pyGetD ((lookupKV mk "header").getD (.obj [])) "msg_type" .null with
    | none => none
    | some mt =>
      if isExecuteRequestType mt then
        match pyGetD ((lookupKV mk "content").getD (.obj [])) "code" .null with
        | none => none
        | some code =>
          if isNotNone code then
            match (lookupKV mk "content").getD (.obj []) with
            | .obj ck =>
              some (dumps (.obj (setKV mk "content" (.obj (setKV ck "code" (.str (injectedCode tok code)))))))
            | _ => none
          else some (dumps (.obj mk))
      else some (dumps (.obj mk))
  | _ => none

/-- Interceptor `KernelWebsocketHandler.on_message`, returning the
frame passed to `self.connection.handle_incoming_message`. `headers`
is `self.request.headers.get`. Binary frames skip the rewrite; any
exception inside the `try` block leaves `ws_message` unchanged. -/
def on_message (headers : String → Option String) (ws_message : Frame) : Frame :=
  match ws_message with
  | .binary b => .binary b
  | .text s =>
    match loads s with
    | none => .text s
    | some message =>
      match tryBody (headers "X-Forwarded-Access-Token") message with
      | none => .text s
      | some out => .text out

/-- Negotiator `KernelWebsocketHandler.select_subprotocol`:
`kernel_ws_protocol` is the relay object's preferred protocol
(`None`, empty, or a concrete name); membership of Python `None` in a
list of strings is false, selecting the legacy protocol. -/
def select_subprotocol (kernel_ws_protocol : Option String) (subprotocols : List String) : Option String :=
  let preferred_protocol : Option String :=
    match kernel_ws_protocol with
    | none => some "v1.kernel.websocket.jupyter.org"
    | some p => if p = "" then none else some p
  match preferred_protocol with
  | some p => if p ∈ subprotocols then some p else none
  | none => none

/-- Inputs consumed by `pre_get`: the resolved identity
(`self.current_user`), the authorization oracle
(`self.authorizer.is_authorized`, applied to the identity, an action
and a resource), and the `session_id` query argument
(`self.get_argument("session_id", None)`, `none` when absent). -/
structure AdmissionRequest (User : Type) where
  current_user : Option User
  is_authorized : User → String → String → Bool
  session_id_arg : Option String

/-- Observable outcome of `KernelWebsocketHandler.pre_get`:
the HTTP error raised (if any), whether `kernel_manager.get_kernel`
was reached, whether the websocket connection object was constructed,
the session identifier stored on it, and whether the missing-session
warning was logged. -/
structure PreGetOutcome where
  httpError : Option Nat
  getKernelCalled : Bool
  connectionConstructed : Bool
  sessionSet : Option String
  warnedNoSession : Bool
deriving DecidableEq, Repr

/-- Admission gate `KernelWebsocketHandler.pre_get`: authenticate,
authorize for action `execute` on resource `kernels`, resolve the
kernel, construct the connection object, then store the `session_id`
argument when it is truthy (Python truth: present and non-empty). -/
def pre_get {User : Type} (req : AdmissionRequest User) : PreGetOutcome :=
  match req.current_user with
  | none => ⟨some 403, false, false, none, false⟩
  | some user =>
    if ¬ req.is_authorized user "execute" "kernels" then ⟨some 403, false, false, none, false⟩
    else
      match req.session_id_arg with
      | some sid =>
        if sid ≠ "" then ⟨none, true, true, some sid, false⟩
        else ⟨none, true, true, none, true⟩
      | none => ⟨none, true, true, none, true⟩

/-- Modelled from the spec: the transport driver that calls `open`
(after the handshake that `get` completes once `pre_get` returns
without error) is not part of the source under verification; per §4.3
the backend connect of `open` is attempted exactly when admission
succeeds. -/
def connectAttempted {User : Type} (req : AdmissionRequest User) : Bool :=
  (pre_get req).httpError = none

/-- States of the per-connection relay lifecycle of spec §4.3. -/
inductive RelayState where
  | idle : RelayState
  | connecting : RelayState
  | active : RelayState
  | closed : RelayState
deriving DecidableEq, Repr

/-- Events driving the relay lifecycle. -/
inductive RelayEvent where
  | handshake_ok : RelayEvent
  | connect_ok : RelayEvent
  | connect_fail : RelayEvent
  | transport_close : RelayEvent
deriving DecidableEq, Repr

/-- Per-connection lifecycle state together with the number of
`connection.disconnect()` calls made so far. -/
structure RelayConn where
  state : RelayState
  disconnectCalls : Nat
deriving DecidableEq, Repr

/-- Modelled from the spec: the event loop invoking `open` and
`on_close` is not part of the source under verification. Transitions
follow §4.3 (`Idle → Connecting → Active → Closed`); every entry into
`closed` performs the single `connection.disconnect()` call of
`on_close`, and `closed` is absorbing (`self.connection = None`
prevents any further activity on the relay). -/
def lstep (c : RelayConn) (e : RelayEvent) : RelayConn :=
  match c.state, e with
  | .idle, .handshake_ok => ⟨.connecting, c.disconnectCalls⟩
  | .connecting, .connect_ok => ⟨.active, c.disconnectCalls⟩
  | .connecting, .connect_fail => ⟨.closed, c.disconnectCalls + 1⟩
  | .connecting, .transport_close => ⟨.closed, c.disconnectCalls + 1⟩
  | .active, .transport_close => ⟨.closed, c.disconnectCalls + 1⟩
  | _, _ => c

/-- Initial lifecycle state of a fresh connection. -/
def linit : RelayConn := ⟨.idle, 0⟩

/-- Run of the lifecycle machine over an event trace. -/
def lrun (c : RelayConn) (es : List RelayEvent) : RelayConn :=
  es.foldl lstep c

/-- Updating one key of a dict leaves lookups of every other key
unchanged. -/
theorem lookupKV_setKV_ne (kvs : List (String × Json)) (k k' : String) (v : Json)
    (h : k' ≠ k) : lookupKV (setKV kvs k v) k' = lookupKV kvs k' := by
  induction kvs with
  | nil =>
    simp only [setKV, lookupKV]
    rw [if_neg (fun e => h e.symm)]
  | cons p rest ih =>
    obtain ⟨k1, v1⟩ := p
    by_cases hk : k1 = k
    · subst hk
      simp only [setKV, if_pos rfl, lookupKV]
      rw [if_neg (fun e => h e.symm), if_neg (fun e => h e.symm)]
    · simp only [setKV, if_neg hk, lookupKV]
      by_cases hk' : k1 = k'
      · rw [if_pos hk', if_pos hk']
      · rw [if_neg hk', if_neg hk', ih]

/-- Lifecycle invariant: a closed connection has made exactly one
disconnect call, an unclosed one none. -/
def LInv (c : RelayConn) : Prop :=
  (c.state = .closed → c.disconnectCalls = 1) ∧ (c.state ≠ .closed → c.disconnectCalls = 0)

/-- One lifecycle step preserves the invariant. -/
theorem linv_lstep (c : RelayConn) (e : RelayEvent) (h : LInv c) : LInv (lstep c e) := by
  obtain ⟨st, d⟩ := c
  obtain ⟨h1, h2⟩ := h
  cases st <;> cases e <;> simp_all [lstep, LInv]

/-- A run of lifecycle steps preserves the invariant. -/
theorem linv_lrun (es : List RelayEvent) (c : RelayConn) (h : LInv c) : LInv (lrun c es) := by
  induction es generalizing c with
  | nil => exact h
  | cons e es ih => exact ih (lstep c e) (linv_lstep c e h)

/-- Every event is a no-op on a closed connection. -/
theorem lstep_closed (c : RelayConn) (e : RelayEvent) (h : c.state = .closed) :
    lstep c e = c := by
  obtain ⟨st, d⟩ := c
  simp only at h
  subst h
  cases e <;> rfl

/-- C3: select_subprotocol returns the fixed default when the
preferred protocol is absent and the default is offered (and none
otherwise), none whenever the preferred protocol is the empty string,
and a non-empty preferred value exactly when it is offered. -/
theorem select_subprotocol_spec (subprotocols : List String) (p : String) (hp : p ≠ "") :
    select_subprotocol none subprotocols =
      (if "v1.kernel.websocket.jupyter.org" ∈ subprotocols
        then some "v1.kernel.websocket.jupyter.org" else none) ∧
    select_subprotocol (some "") subprotocols = none ∧
    select_subprotocol (some p) subprotocols = (if p ∈ subprotocols then some p else none) := by
  refine ⟨rfl, rfl, ?_⟩
  simp [select_subprotocol, hp]

/-- Witness for C3 at a concrete offered list and preferred value. -/
theorem select_subprotocol_spec_witness :
    ("x" : String) ≠ "" ∧
    select_subprotocol none ["v1.kernel.websocket.jupyter.org"] = some "v1.kernel.websocket.jupyter.org" ∧
    select_subprotocol (some "") ["v1.kernel.websocket.jupyter.org"] = none ∧
    select_subprotocol (some "x") ["v1.kernel.websocket.jupyter.org"] = none := by
  have h := select_subprotocol_spec ["v1.kernel.websocket.jupyter.org"] "x" (by decide)
  refine ⟨by decide, ?_, h.2.1, ?_⟩
  · rw [h.1]; decide
  · rw [h.2.2]; decide

/-- C2: when no identity resolves, or the identity fails the
authorization check for action execute on resource kernels, pre_get
raises 403 without resolving the kernel or constructing the
connection object, and no backend connect is attempted. -/
theorem pre_get_rejects_unauthorized {User : Type} (req : AdmissionRequest User)
    (h : req.current_user = none ∨
      ∃ u, req.current_user = some u ∧ req.is_authorized u "execute" "kernels" = false) :
    (pre_get req).httpError = some 403 ∧
    (pre_get req).connectionConstructed = false ∧
    (pre_get req).getKernelCalled = false ∧
    connectAttempted req = false := by
  rcases h with h | ⟨u, hu, ha⟩
  · simp [pre_get, connectAttempted, h]
  · simp [pre_get, connectAttempted, hu, ha]

/-- Witness for C2 at a concrete unauthenticated request. -/
theorem pre_get_rejects_unauthorized_witness :
    (pre_get (⟨none, fun _ _ _ => true, none⟩ : AdmissionRequest Unit)).httpError = some 403 ∧
    (pre_get (⟨none, fun _ _ _ => true, none⟩ : AdmissionRequest Unit)).connectionConstructed = false ∧
    (pre_get (⟨none, fun _ _ _ => true, none⟩ : AdmissionRequest Unit)).getKernelCalled = false ∧
    connectAttempted (⟨none, fun _ _ _ => true, none⟩ : AdmissionRequest Unit) = false :=
  pre_get_rejects_unauthorized _ (Or.inl rfl)

/-- C9: an empty session_id query argument is falsy, so pre_get
proceeds, logs the missing-session warning and leaves the connection
session token at its default. -/
theorem pre_get_empty_session_id {User : Type} (req : AdmissionRequest User) (u : User)
    (hu : req.current_user = some u)
    (ha : req.is_authorized u "execute" "kernels" = true)
    (hs : req.session_id_arg = some "") :
    (pre_get req).httpError = none ∧
    (pre_get req).warnedNoSession = true ∧
    (pre_get req).sessionSet = none := by
  simp [pre_get, hu, ha, hs]

/-- Witness for C9 at a concrete request carrying an empty session_id. -/
theorem pre_get_empty_session_id_witness :
    (pre_get (⟨some (), fun _ _ _ => true, some ""⟩ : AdmissionRequest Unit)).httpError = none ∧
    (pre_get (⟨some (), fun _ _ _ => true, some ""⟩ : AdmissionRequest Unit)).warnedNoSession = true ∧
    (pre_get (⟨some (), fun _ _ _ => true, some ""⟩ : AdmissionRequest Unit)).sessionSet = none :=
  pre_get_empty_session_id _ () rfl rfl rfl

/-- C5: binary frames, and text frames on which the JSON decode
raises, are forwarded byte-identical to the original. -/
theorem interceptor_passthrough_unparseable (headers : String → Option String) :
    (∀ b, on_message headers (.binary b) = .binary b) ∧
    (∀ s, loads s = none → on_message headers (.text s) = .text s) := by
  refine ⟨fun b => rfl, fun s h => ?_⟩
  simp [on_message, h]

/-- Witness for C5 at a concrete unparseable text frame. -/
theorem interceptor_passthrough_unparseable_witness :
    loads "not json \x7b" = none ∧
    on_message (fun _ => none) (.text "not json \x7b") = .text "not json \x7b" :=
  ⟨rfl, (interceptor_passthrough_unparseable (fun _ => none)).2 "not json \x7b" rfl⟩

/-- C6: on_message is total and fail-open: every frame is forwarded,
either unchanged (whenever the decode or the rewrite body raises, and
for binary frames) or as the re-serialization the try block produced. -/
theorem on_message_total_fail_open (headers : String → Option String) (f : Frame) :
    on_message headers f = f ∨
    (∃ s message out, f = .text s ∧ loads s = some message ∧
      tryBody (headers "X-Forwarded-Access-Token") message = some out ∧
      on_message headers f = .text out) := by
  cases f with
  | binary b => exact Or.inl rfl
  | text s =>
    cases hl : loads s with
    | none => exact Or.inl (by simp [on_message, hl])
    | some message =>
      cases hb : tryBody (headers "X-Forwarded-Access-Token") message with
      | none => exact Or.inl (by simp [on_message, hl, hb])
      | some out => exact Or.inr ⟨s, message, out, rfl, hl, hb, by simp [on_message, hl, hb]⟩

/-- C10: a text frame that decodes to a JSON value other than an
object (the attribute lookup on it raises inside the try block) is
forwarded byte-identical to the original. -/
theorem non_object_passthrough (headers : String → Option String) (s : String) (j : Json)
    (hl : loads s = some j) (hno : ∀ kvs, j ≠ Json.obj kvs) :
    on_message headers (.text s) = .text s := by
  have hb : tryBody (headers "X-Forwarded-Access-Token") j = none := by
    cases j
    case obj kvs => exact absurd rfl (hno kvs)
    all_goals rfl
  simp [on_message, hl, hb]

/-- Witness for C10 at a concrete frame decoding to a JSON array. -/
theorem non_object_passthrough_witness :
    loads "[1, 2]" = some (Json.arr [Json.num 1, Json.num 2]) ∧
    on_message (fun _ => none) (.text "[1, 2]") = .text "[1, 2]" :=
  ⟨rfl, non_object_passthrough (fun _ => none) "[1, 2]" (Json.arr [Json.num 1, Json.num 2]) rfl
    (fun _ h => Json.noConfusion h)⟩

/-- C8: along any event trace of a fresh connection, the closed state
carries exactly one disconnect call, every unclosed state none, and
once closed no event re-enters connecting or active or adds a
disconnect call. -/
theorem relay_single_disconnect (es : List RelayEvent) :
    ((lrun linit es).state = .closed → (lrun linit es).disconnectCalls = 1) ∧
    ((lrun linit es).state ≠ .closed → (lrun linit es).disconnectCalls = 0) ∧
    (∀ e, (lrun linit es).state = .closed → lstep (lrun linit es) e = lrun linit es) := by
  have h := linv_lrun es linit ⟨by simp [linit], by simp [linit]⟩
  exact ⟨h.1, h.2, fun e hc => lstep_closed _ e hc⟩

/-- Witness for C8 on the trace of a connect failure followed by a
further transport closure event. -/
theorem relay_single_disconnect_witness :
    (lrun linit [RelayEvent.handshake_ok, RelayEvent.connect_fail]).disconnectCalls = 1 ∧
    lstep (lrun linit [RelayEvent.handshake_ok, RelayEvent.connect_fail]) RelayEvent.transport_close =
      lrun linit [RelayEvent.handshake_ok, RelayEvent.connect_fail] :=
  ⟨(relay_single_disconnect [RelayEvent.handshake_ok, RelayEvent.connect_fail]).1 (by decide),
   (relay_single_disconnect [RelayEvent.handshake_ok, RelayEvent.connect_fail]).2.2
     RelayEvent.transport_close (by decide)⟩

/-- C4 (amended): a text frame decoding to an object whose header
msg_type is defined and differs from execute_request is forwarded as
the canonical re-serialization of the decoded envelope unchanged: the
forwarded content is the input frame's own decoded content value, so
it is byte-identical up to JSON re-serialization, though the raw
frame bytes are normalized (separators, escapes) by json.dumps. -/
theorem non_execute_forward (headers : String → Option String) (s : String)
    (mk : List (String × Json)) (mt : Json)
    (hl : loads s = some (Json.obj mk))
    (hmt : pyGetD ((lookupKV mk "header").getD (Json.obj [])) "msg_type" Json.null = some mt)
    (hne : isExecuteRequestType mt = false) :
    on_message headers (.text s) = .text (dumps (Json.obj mk)) := by
  simp [on_message, hl, tryBody, hmt, hne]

/-- Witness for C4 at a concrete kernel_info_request frame. -/
theorem non_execute_forward_witness :
    loads "\x7b\"header\": \x7b\"msg_type\": \"kernel_info_request\"\x7d, \"content\": \x7b\"a\": 1\x7d\x7d" =
      some (Json.obj [("header", Json.obj [("msg_type", Json.str "kernel_info_request")]),
        ("content", Json.obj [("a", Json.num 1)])]) ∧
    on_message (fun _ => some "TOK")
      (.text "\x7b\"header\": \x7b\"msg_type\": \"kernel_info_request\"\x7d, \"content\": \x7b\"a\": 1\x7d\x7d") =
    .text (dumps (Json.obj [("header", Json.obj [("msg_type", Json.str "kernel_info_request")]),
      ("content", Json.obj [("a", Json.num 1)])])) :=
  ⟨rfl, non_execute_forward (fun _ => some "TOK") _ _ (Json.str "kernel_info_request") rfl rfl rfl⟩

set_option maxRecDepth 8192 in
/-- Counterexample to C4 as stated: a non-execute frame whose content
is serialized non-canonically is re-serialized by json.dumps on
forwarding, and the input's content bytes occur nowhere in the
forwarded frame — the content is not byte-identical, only
value-identical. -/
theorem non_execute_content_not_byte_identical :
    on_message (fun _ => none)
      (.text "\x7b\"header\": \x7b\"msg_type\": \"kernel_info_request\"\x7d, \"content\": \x7b\"a\":1\x7d\x7d") =
    .text "\x7b\"header\": \x7b\"msg_type\": \"kernel_info_request\"\x7d, \"content\": \x7b\"a\": 1\x7d\x7d" ∧
    List.IsInfix "\x7b\"a\":1\x7d".data
      "\x7b\"header\": \x7b\"msg_type\": \"kernel_info_request\"\x7d, \"content\": \x7b\"a\":1\x7d\x7d".data ∧
    ¬ List.IsInfix "\x7b\"a\":1\x7d".data
      "\x7b\"header\": \x7b\"msg_type\": \"kernel_info_request\"\x7d, \"content\": \x7b\"a\": 1\x7d\x7d".data := by
  refine ⟨rfl, ?_, ?_⟩ <;> decide

/-- C1: an execute_request text frame with a string code payload and a
present forwarded-credential header is forwarded with content.code
replaced by the environment assignment carrying the header value,
a newline, then the original code verbatim; all other keys of the
envelope and of content (header.msg_type included) are unchanged. -/
theorem execute_request_rewrite (headers : String → Option String) (tok s code : String)
    (mk hk ck : List (String × Json))
    (hl : loads s = some (Json.obj mk))
    (hh : lookupKV mk "header" = some (Json.obj hk))
    (hmt : lookupKV hk "msg_type" = some (Json.str "execute_request"))
    (hc : lookupKV mk "content" = some (Json.obj ck))
    (hcode : lookupKV ck "code" = some (Json.str code))
    (htok : headers "X-Forwarded-Access-Token" = some tok) :
    ∃ newCode : String,
      newCode = "import os\nos.environ[\x27FORWARDED_ACCESS_TOKEN\x27] = \x27" ++ tok ++ "\x27\n" ++ code ∧
      on_message headers (.text s) =
        .text (dumps (Json.obj (setKV mk "content" (Json.obj (setKV ck "code" (Json.str newCode)))))) ∧
      (∀ k, k ≠ "content" →
        lookupKV (setKV mk "content" (Json.obj (setKV ck "code" (Json.str newCode)))) k = lookupKV mk k) ∧
      (∀ k, k ≠ "code" → lookupKV (setKV ck "code" (Json.str newCode)) k = lookupKV ck k) := by
  refine ⟨injectedCode (some tok) (Json.str code), ?_, ?_, ?_, ?_⟩
  · simp [injectedCode, pyStrOfHeader, pyStr]
  · simp [on_message, hl, tryBody, hh, hmt, hc, hcode, htok, pyGetD, isExecuteRequestType, isNotNone]
  · exact fun k hk' => lookupKV_setKV_ne mk "content" k _ hk'
  · exact fun k hk' => lookupKV_setKV_ne ck "code" k _ hk'

/-- Witness for C1 at the canonical execute_request frame with header
value TOK. -/
theorem execute_request_rewrite_witness :
    on_message (fun h => if h = "X-Forwarded-Access-Token" then some "TOK" else none)
      (.text "\x7b\"header\": \x7b\"msg_type\": \"execute_request\"\x7d, \"content\": \x7b\"code\": \"print(1)\"\x7d\x7d") =
    .text "\x7b\"header\": \x7b\"msg_type\": \"execute_request\"\x7d, \"content\": \x7b\"code\": \"import os\\nos.environ[\x27FORWARDED_ACCESS_TOKEN\x27] = \x27TOK\x27\\nprint(1)\"\x7d\x7d" := by
  obtain ⟨nc, hnc, hmain, -, -⟩ :=
    execute_request_rewrite (fun h => if h = "X-Forwarded-Access-Token" then some "TOK" else none)
      "TOK"
      "\x7b\"header\": \x7b\"msg_type\": \"execute_request\"\x7d, \"content\": \x7b\"code\": \"print(1)\"\x7d\x7d"
      "print(1)"
      [("header", Json.obj [("msg_type", Json.str "execute_request")]),
        ("content", Json.obj [("code", Json.str "print(1)")])]
      [("msg_type", Json.str "execute_request")]
      [("code", Json.str "print(1)")]
      rfl rfl rfl rfl rfl rfl
  rw [hmain, hnc]
  rfl

/-- C7: with the forwarded-credential header absent the rewrite of an
execute_request frame still occurs, the injected assignment carrying
the sentinel text None; the outcome is indistinguishable from a
request whose header value is the literal string None. -/
theorem missing_header_sentinel_rewrite (headers : String → Option String) (s code : String)
    (mk hk ck : List (String × Json))
    (hl : loads s = some (Json.obj mk))
    (hh : lookupKV mk "header" = some (Json.obj hk))
    (hmt : lookupKV hk "msg_type" = some (Json.str "execute_request"))
    (hc : lookupKV mk "content" = some (Json.obj ck))
    (hcode : lookupKV ck "code" = some (Json.str code))
    (htok : headers "X-Forwarded-Access-Token" = none) :
    on_message headers (.text s) =
      .text (dumps (Json.obj (setKV mk "content" (Json.obj (setKV ck "code"
        (Json.str ("import os\nos.environ[\x27FORWARDED_ACCESS_TOKEN\x27] = \x27None\x27\n" ++ code))))))) ∧
    (∀ headers2 : String → Option String,
      headers2 "X-Forwarded-Access-Token" = some "None" →
      on_message headers2 (.text s) = on_message headers (.text s)) := by
  have main : ∀ h3 : String → Option String,
      pyStrOfHeader (h3 "X-Forwarded-Access-Token") = "None" →
      on_message h3 (.text s) =
        .text (dumps (Json.obj (setKV mk "content" (Json.obj (setKV ck "code"
          (Json.str ("import os\nos.environ[\x27FORWARDED_ACCESS_TOKEN\x27] = \x27None\x27\n" ++ code))))))) := by
    intro h3 hh3
    have hinj : injectedCode (h3 "X-Forwarded-Access-Token") (Json.str code) =
        "import os\nos.environ[\x27FORWARDED_ACCESS_TOKEN\x27] = \x27None\x27\n" ++ code := by
      rw [injectedCode, hh3]
      rfl
    simp [on_message, hl, tryBody, hh, hmt, hc, hcode, pyGetD, isExecuteRequestType, isNotNone, hinj]
  have h1 := main headers (by rw [htok]; rfl)
  refine ⟨h1, fun headers2 h2 => ?_⟩
  rw [h1, main headers2 (by rw [h2]; rfl)]

/-- Witness for C7 at the canonical execute_request frame with the
credential header absent. -/
theorem missing_header_sentinel_rewrite_witness :
    on_message (fun _ => none)
      (.text "\x7b\"header\": \x7b\"msg_type\": \"execute_request\"\x7d, \"content\": \x7b\"code\": \"print(1)\"\x7d\x7d") =
    .text "\x7b\"header\": \x7b\"msg_type\": \"execute_request\"\x7d, \"content\": \x7b\"code\": \"import os\\nos.environ[\x27FORWARDED_ACCESS_TOKEN\x27] = \x27None\x27\\nprint(1)\"\x7d\x7d" := by
  have h :=
    missing_header_sentinel_rewrite (fun _ => none)
      "\x7b\"header\": \x7b\"msg_type\": \"execute_request\"\x7d, \"content\": \x7b\"code\": \"print(1)\"\x7d\x7d"
      "print(1)"
      [("header", Json.obj [("msg_type", Json.str "execute_request")]),
        ("content", Json.obj [("code", Json.str "print(1)")])]
      [("msg_type", Json.str "execute_request")]
      [("code", Json.str "print(1)")]
      rfl rfl rfl rfl rfl rfl
  rw [h.1]
  rfl

end JupyterKernelWS
